import Mathlib

/-!
Shallow embedding of the eco-goinfra builder packages `pkg/bmh` (bmh.go) and
`pkg/hypershift` (nodepool.go).

Cluster interaction is modelled by explicit oracles: every operation that
performs a client `Get` receives the outcome of that fetch as an argument
(`GetRes`), every remote `Delete`/`Create` receives an `Option GoErr`
(`none` = remote success), and the polling waits receive the whole sequence
of fetch outcomes as a function `Nat → GetRes _` together with a fuel value
standing for the number of one-second polling cycles the timeout allows.
-/

set_option linter.unusedVariables false

/-- Classified error produced by the cluster API client: an error message plus
the "not found" classification that `k8serrors.IsNotFound` reports. -/
structure GoErr where
  msg : String
  isNotFound : Bool
deriving DecidableEq

/-- Outcome of a single fetch (client `Get` call) against the cluster. -/
inductive GetRes (α : Type) where
  | ok (obj : α)
  | err (e : GoErr)
deriving DecidableEq

/-- The `k8serrors.IsNotFound` check lifted to an optional error
(`IsNotFound nil = false` in Go). -/
def IsNotFound : Option GoErr → Bool
  | none => false
  | some e => e.isNotFound

/-- Outcome of a polling wait: `success` models a nil error from `wait.Poll` /
`wait.PollImmediate`, `timeout` models `wait.ErrWaitTimeout`, and `failure e`
models the condition function terminating the poll with error `e` (or a
pre-poll error being returned). -/
inductive WaitRes where
  | success
  | timeout
  | failure (e : GoErr)
deriving DecidableEq

/-- Mirrors `pkg/msg.UndefinedCrdObjectErrString` of this repository; the msg
package is outside the two source files, and only the non-emptiness of the
returned string is relied upon below. -/
def UndefinedCrdObjectErrString (crName : String) : String :=
  "can not redefine the undefined " ++ crName

/-- `metaV1.ObjectMeta`, restricted to the two fields this code uses. -/
structure ObjectMeta where
  Name : String
  Namespace : String
deriving DecidableEq

namespace bmh

/-- `bmhv1alpha1.BMCDetails` as populated by `NewBuilder`. -/
structure BMCDetails where
  Address : String
  CredentialsName : String
  DisableCertificateVerification : Bool
deriving DecidableEq

/-- `bmhv1alpha1.RootDeviceHints`; the defaults are the Go zero values used by
the lazy `&bmhv1alpha1.RootDeviceHints{}` allocation in the mutators. -/
structure RootDeviceHints where
  DeviceName : String := ""
  HCTL : String := ""
  Model : String := ""
  Vendor : String := ""
  SerialNumber : String := ""
  MinSizeGigabytes : Int := 0
  WWN : String := ""
  WWNWithExtension : String := ""
  WWNVendorExtension : String := ""
  Rotational : Option Bool := none
deriving DecidableEq

/-- `bmhv1alpha1.ProvisioningState` is a string type. -/
abbrev ProvisioningState := String

/-- The provisioning part of the bmh status (`Status.Provisioning.State`). -/
structure ProvisionStatus where
  State : ProvisioningState
deriving DecidableEq

/-- `bmhv1alpha1.BareMetalHostStatus`, restricted to the field this code reads. -/
structure BareMetalHostStatus where
  Provisioning : ProvisionStatus
deriving DecidableEq

/-- `bmhv1alpha1.BareMetalHostSpec`, restricted to the fields this code sets. -/
structure BareMetalHostSpec where
  BMC : BMCDetails
  BootMode : String
  BootMACAddress : String
  Online : Bool
  ExternallyProvisioned : Bool
  RootDeviceHints : Option RootDeviceHints := none
deriving DecidableEq

/-- `bmhv1alpha1.BareMetalHost`; the status default is the Go zero value. -/
structure BareMetalHost where
  ObjectMeta : ObjectMeta
  Spec : BareMetalHostSpec
  Status : BareMetalHostStatus := { Provisioning := { State := "" } }
deriving DecidableEq

/-- The bmh `Builder`. The api client is abstracted to the one bit of
information the code can observe about it (whether it is nil). -/
structure Builder where
  Definition : Option BareMetalHost
  Object : Option BareMetalHost
  apiClientNil : Bool
  errorMsg : String
deriving DecidableEq

/-- The `bootModeAcceptable` slice of `NewBuilder`. -/
def bootModeAcceptable : List String := ["UEFI", "UEFISecureBoot", "legacy"]

/-- `bmh.NewBuilder` (bmh.go lines 35-91): populates the definition, then runs
the required-field checks in source order, each overwriting `errorMsg`. -/
def NewBuilder (apiClientNil : Bool)
    (name nsname bmcAddress bmcSecretName bootMacAddress bootMode : String) : Builder :=
  let builder : Builder :=
    { apiClientNil := apiClientNil
      Definition := some
        { ObjectMeta := { Name := name, Namespace := nsname }
          Spec :=
            { BMC :=
                { Address := bmcAddress
                  CredentialsName := bmcSecretName
                  DisableCertificateVerification := true }
              BootMode := bootMode
              BootMACAddress := bootMacAddress
              Online := true
              ExternallyProvisioned := false
              RootDeviceHints := none } }
      Object := none
      errorMsg := "" }
  let builder := if name == "" then
    { builder with errorMsg := "BMH 'name' cannot be empty" } else builder
  let builder := if nsname == "" then
    { builder with errorMsg := "BMH 'nsname' cannot be empty" } else builder
  let builder := if bmcAddress == "" then
    { builder with errorMsg := "BMH 'bmcAddress' cannot be empty" } else builder
  let builder := if bmcSecretName == "" then
    { builder with errorMsg := "BMH 'bmcSecretName' cannot be empty" } else builder
  let builder := if !(bootModeAcceptable.contains bootMode) then
    { builder with errorMsg := "Not acceptable 'bootMode' value" } else builder
  let builder := if bootMacAddress == "" then
    { builder with errorMsg := "BMH 'bootMacAddress' cannot be empty" } else builder
  builder

/-- `Builder.WithRootDeviceDeviceName` (bmh.go lines 94-118). -/
def Builder.WithRootDeviceDeviceName (builder : Builder) (deviceName : String) : Builder :=
  let builder := if builder.Definition.isNone then
    { builder with errorMsg := UndefinedCrdObjectErrString "BareMetalHost" } else builder
  let builder := if deviceName == "" then
    { builder with errorMsg := "the baremetalhost rootDeviceHint deviceName cannot be empty" }
    else builder
  if builder.errorMsg != "" then builder
  else
    match builder.Definition with
    | some d =>
        let hints := d.Spec.RootDeviceHints.getD {}
        { builder with
            Definition := some { d with Spec := { d.Spec with
              RootDeviceHints := some { hints with DeviceName := deviceName } } } }
    | none => builder

/-- `Builder.WithRootDeviceHTCL` (bmh.go lines 121-145). -/
def Builder.WithRootDeviceHTCL (builder : Builder) (hctl : String) : Builder :=
  let builder := if builder.Definition.isNone then
    { builder with errorMsg := UndefinedCrdObjectErrString "BareMetalHost" } else builder
  let builder := if hctl == "" then
    { builder with errorMsg := "the baremetalhost rootDeviceHint hctl cannot be empty" }
    else builder
  if builder.errorMsg != "" then builder
  else
    match builder.Definition with
    | some d =>
        let hints := d.Spec.RootDeviceHints.getD {}
        { builder with
            Definition := some { d with Spec := { d.Spec with
              RootDeviceHints := some { hints with HCTL := hctl } } } }
    | none => builder

/-- `Builder.WithRootDeviceModel` (bmh.go lines 148-172). -/
def Builder.WithRootDeviceModel (builder : Builder) (model : String) : Builder :=
  let builder := if builder.Definition.isNone then
    { builder with errorMsg := UndefinedCrdObjectErrString "BareMetalHost" } else builder
  let builder := if model == "" then
    { builder with errorMsg := "the baremetalhost rootDeviceHint model cannot be empty" }
    else builder
  if builder.errorMsg != "" then builder
  else
    match builder.Definition with
    | some d =>
        let hints := d.Spec.RootDeviceHints.getD {}
        { builder with
            Definition := some { d with Spec := { d.Spec with
              RootDeviceHints := some { hints with Model := model } } } }
    | none => builder

/-- `Builder.WithRootDeviceVendor` (bmh.go lines 175-199). The final assignment
mirrors line 196 of the source, which writes the `Model` field, not `Vendor`. -/
def Builder.WithRootDeviceVendor (builder : Builder) (vendor : String) : Builder :=
  let builder := if builder.Definition.isNone then
    { builder with errorMsg := UndefinedCrdObjectErrString "BareMetalHost" } else builder
  let builder := if vendor == "" then
    { builder with errorMsg := "the baremetalhost rootDeviceHint vendor cannot be empty" }
    else builder
  if builder.errorMsg != "" then builder
  else
    match builder.Definition with
    | some d =>
        let hints := d.Spec.RootDeviceHints.getD {}
        { builder with
            Definition := some { d with Spec := { d.Spec with
              RootDeviceHints := some { hints with Model := vendor } } } }
    | none => builder

/-- `Builder.WithRootDeviceSerialNumber` (bmh.go lines 202-226). -/
def Builder.WithRootDeviceSerialNumber (builder : Builder) (serialNumber : String) : Builder :=
  let builder := if builder.Definition.isNone then
    { builder with errorMsg := UndefinedCrdObjectErrString "BareMetalHost" } else builder
  let builder := if serialNumber == "" then
    { builder with errorMsg := "the baremetalhost rootDeviceHint serialNumber cannot be empty" }
    else builder
  if builder.errorMsg != "" then builder
  else
    match builder.Definition with
    | some d =>
        let hints := d.Spec.RootDeviceHints.getD {}
        { builder with
            Definition := some { d with Spec := { d.Spec with
              RootDeviceHints := some { hints with SerialNumber := serialNumber } } } }
    | none => builder

/-- `Builder.WithRootDeviceMinSizeGigabytes` (bmh.go lines 229-253). -/
def Builder.WithRootDeviceMinSizeGigabytes (builder : Builder) (size : Int) : Builder :=
  let builder := if builder.Definition.isNone then
    { builder with errorMsg := UndefinedCrdObjectErrString "BareMetalHost" } else builder
  let builder := if size < 0 then
    { builder with errorMsg := "the baremetalhost rootDeviceHint size cannot be less than 0" }
    else builder
  if builder.errorMsg != "" then builder
  else
    match builder.Definition with
    | some d =>
        let hints := d.Spec.RootDeviceHints.getD {}
        { builder with
            Definition := some { d with Spec := { d.Spec with
              RootDeviceHints := some { hints with MinSizeGigabytes := size } } } }
    | none => builder

/-- `Builder.WithRootDeviceWWN` (bmh.go lines 256-280). -/
def Builder.WithRootDeviceWWN (builder : Builder) (wwn : String) : Builder :=
  let builder := if builder.Definition.isNone then
    { builder with errorMsg := UndefinedCrdObjectErrString "BareMetalHost" } else builder
  let builder := if wwn == "" then
    { builder with errorMsg := "the baremetalhost rootDeviceHint wwn cannot be empty" }
    else builder
  if builder.errorMsg != "" then builder
  else
    match builder.Definition with
    | some d =>
        let hints := d.Spec.RootDeviceHints.getD {}
        { builder with
            Definition := some { d with Spec := { d.Spec with
              RootDeviceHints := some { hints with WWN := wwn } } } }
    | none => builder

/-- `Builder.WithRootDeviceWWNWithExtension` (bmh.go lines 283-307). -/
def Builder.WithRootDeviceWWNWithExtension (builder : Builder) (wwnWithExtension : String) : Builder :=
  let builder := if builder.Definition.isNone then
    { builder with errorMsg := UndefinedCrdObjectErrString "BareMetalHost" } else builder
  let builder := if wwnWithExtension == "" then
    { builder with errorMsg := "the baremetalhost rootDeviceHint wwnWithExtension cannot be empty" }
    else builder
  if builder.errorMsg != "" then builder
  else
    match builder.Definition with
    | some d =>
        let hints := d.Spec.RootDeviceHints.getD {}
        { builder with
            Definition := some { d with Spec := { d.Spec with
              RootDeviceHints := some { hints with WWNWithExtension := wwnWithExtension } } } }
    | none => builder

/-- `Builder.WithRootDeviceWWNVendorExtension` (bmh.go lines 310-334). -/
def Builder.WithRootDeviceWWNVendorExtension (builder : Builder) (wwnVendorExtension : String) : Builder :=
  let builder := if builder.Definition.isNone then
    { builder with errorMsg := UndefinedCrdObjectErrString "BareMetalHost" } else builder
  let builder := if wwnVendorExtension == "" then
    { builder with
        errorMsg := "the baremetalhost rootDeviceHint wwnVendorExtension cannot be empty" }
    else builder
  if builder.errorMsg != "" then builder
  else
    match builder.Definition with
    | some d =>
        let hints := d.Spec.RootDeviceHints.getD {}
        { builder with
            Definition := some { d with Spec := { d.Spec with
              RootDeviceHints := some { hints with WWNVendorExtension := wwnVendorExtension } } } }
    | none => builder

/-- `Builder.WithRootDeviceRotationalDisk` (bmh.go lines 337-355). -/
def Builder.WithRootDeviceRotationalDisk (builder : Builder) (rotational : Bool) : Builder :=
  let builder := if builder.Definition.isNone then
    { builder with errorMsg := UndefinedCrdObjectErrString "BareMetalHost" } else builder
  if builder.errorMsg != "" then builder
  else
    match builder.Definition with
    | some d =>
        let hints := d.Spec.RootDeviceHints.getD {}
        { builder with
            Definition := some { d with Spec := { d.Spec with
              RootDeviceHints := some { hints with Rotational := some rotational } } } }
    | none => builder
/-- `AdditionalOptions` (bmh.go line 32). An option receives the builder and
returns the updated builder together with an optional error message; the Go
options mutate the builder through the received pointer and return that same
pointer, which is how the success branch of the loop is modelled. -/
def AdditionalOptions := Builder → Builder × Option String

/-- The option loop of `Builder.WithOptions` (bmh.go lines 371-383): a nil
option is skipped, an option returning an error stores that error message and
stops the loop, otherwise iteration continues on the mutated builder. -/
def withOptionsLoop (builder : Builder) : List (Option AdditionalOptions) → Builder
  | [] => builder
  | opt :: rest =>
      match opt with
      | none => withOptionsLoop builder rest
      | some f =>
          let r := f builder
          match r.2 with
          | some e => { r.1 with errorMsg := e }
          | none => withOptionsLoop r.1 rest

/-- `Builder.WithOptions` (bmh.go lines 358-386). -/
def Builder.WithOptions (builder : Builder) (options : List (Option AdditionalOptions)) : Builder :=
  let builder := if builder.Definition.isNone then
    { builder with errorMsg := UndefinedCrdObjectErrString "bmh" } else builder
  if builder.errorMsg != "" then builder
  else withOptionsLoop builder options

/-- `Builder.Get` (bmh.go lines 466-478): returns the fetched object or the
underlying fetch error unchanged; the builder itself is not modified. -/
def Builder.Get (builder : Builder) (res : GetRes BareMetalHost) :
    Option BareMetalHost × Option GoErr :=
  match res with
  | .ok obj => (some obj, none)
  | .err e => (none, some e)

/-- `Builder.Exists` (bmh.go lines 458-463): stores the fetch result in
`Object` and returns `err == nil || !IsNotFound(err)`. -/
def Builder.Exists (builder : Builder) (res : GetRes BareMetalHost) : Builder × Bool :=
  let g := builder.Get res
  ({ builder with Object := g.1 }, g.2.isNone || !(IsNotFound g.2))

/-- `Builder.Create` (bmh.go lines 424-438). `getRes` is the outcome of the
fetch made by the embedded `Exists` call and `createErr` the outcome of the
remote create (consulted only when the create is issued). -/
def Builder.Create (builder : Builder) (getRes : GetRes BareMetalHost)
    (createErr : Option GoErr) : Option Builder × Option GoErr :=
  if builder.errorMsg != "" then
    (none, some { msg := builder.errorMsg, isNotFound := false })
  else
    let ex := builder.Exists getRes
    if !ex.2 then
      match createErr with
      | none => (some { ex.1 with Object := ex.1.Definition }, none)
      | some e => (some ex.1, some e)
    else (some ex.1, none)

/-- Result of `Builder.Delete`: the returned builder, whether the remote delete
was invoked at all, and the returned error. -/
structure DeleteOutcome where
  builder : Builder
  deleteInvoked : Bool
  err : Option GoErr
deriving DecidableEq

/-- `Builder.Delete` (bmh.go lines 441-455). `getRes` is the outcome of the
fetch made by the embedded `Exists` call and `deleteErr` the outcome of the
remote delete (consulted only when the delete is issued). -/
def Builder.Delete (builder : Builder) (getRes : GetRes BareMetalHost)
    (deleteErr : Option GoErr) : DeleteOutcome :=
  let ex := builder.Exists getRes
  if !ex.2 then
    { builder := ex.1, deleteInvoked := false
      err := some { msg := "bmh cannot be deleted because it does not exist"
                    isNotFound := false } }
  else
    match deleteErr with
    | some e =>
        { builder := ex.1, deleteInvoked := true
          err := some { msg := "can not delete bmh: " ++ e.msg, isNotFound := e.isNotFound } }
    | none => { builder := { ex.1 with Object := none }, deleteInvoked := true, err := none }

/-- Whether a fetch outcome satisfies the condition of `WaitUntilInStatus`. -/
def satisfiesState (status : ProvisioningState) : GetRes BareMetalHost → Bool
  | .ok obj => obj.Status.Provisioning.State == status
  | .err _ => false

/-- The `wait.PollImmediate` condition loop of `WaitUntilInStatus` (bmh.go
lines 518-530): a fetch error sets `Object` to nil and polling continues; a
successful fetch stores the object and succeeds exactly when its provisioning
state equals the target. The result carries the builder, the wait outcome and
the number of fetches performed (`idx` counts fetches already made). -/
def waitLoop (status : ProvisioningState) (fetches : Nat → GetRes BareMetalHost) :
    Builder → Nat → Nat → Builder × WaitRes × Nat
  | builder, idx, 0 => (builder, WaitRes.timeout, idx)
  | builder, idx, fuel + 1 =>
      match fetches idx with
      | .err _ => waitLoop status fetches { builder with Object := none } (idx + 1) fuel
      | .ok obj =>
          if obj.Status.Provisioning.State == status then
            ({ builder with Object := some obj }, WaitRes.success, idx + 1)
          else waitLoop status fetches { builder with Object := some obj } (idx + 1) fuel

/-- `Builder.WaitUntilInStatus` (bmh.go lines 513-531). `timeoutSecs` is the
number of one-second polling cycles the timeout budget allows. -/
def Builder.WaitUntilInStatus (builder : Builder) (status : ProvisioningState)
    (fetches : Nat → GetRes BareMetalHost) (timeoutSecs : Nat) : Builder × WaitRes × Nat :=
  if builder.errorMsg != "" then
    (builder, WaitRes.failure { msg := builder.errorMsg, isNotFound := false }, 0)
  else waitLoop status fetches builder 0 timeoutSecs

/-- `bmhv1alpha1.StateProvisioned`. -/
def StateProvisioned : ProvisioningState := "provisioned"

/-- `bmhv1alpha1.StateProvisioning`. -/
def StateProvisioning : ProvisioningState := "provisioning"

/-- `bmhv1alpha1.StateReady`. -/
def StateReady : ProvisioningState := "ready"

/-- `bmhv1alpha1.StateAvailable`. -/
def StateAvailable : ProvisioningState := "available"

/-- `Builder.WaitUntilProvisioned` (bmh.go lines 493-495). -/
def Builder.WaitUntilProvisioned (builder : Builder)
    (fetches : Nat → GetRes BareMetalHost) (timeoutSecs : Nat) : Builder × WaitRes × Nat :=
  builder.WaitUntilInStatus StateProvisioned fetches timeoutSecs

/-- `Builder.WaitUntilProvisioning` (bmh.go lines 498-500). -/
def Builder.WaitUntilProvisioning (builder : Builder)
    (fetches : Nat → GetRes BareMetalHost) (timeoutSecs : Nat) : Builder × WaitRes × Nat :=
  builder.WaitUntilInStatus StateProvisioning fetches timeoutSecs

/-- `Builder.WaitUntilReady` (bmh.go lines 503-505). -/
def Builder.WaitUntilReady (builder : Builder)
    (fetches : Nat → GetRes BareMetalHost) (timeoutSecs : Nat) : Builder × WaitRes × Nat :=
  builder.WaitUntilInStatus StateReady fetches timeoutSecs

/-- `Builder.WaitUntilAvailable` (bmh.go lines 508-510). -/
def Builder.WaitUntilAvailable (builder : Builder)
    (fetches : Nat → GetRes BareMetalHost) (timeoutSecs : Nat) : Builder × WaitRes × Nat :=
  builder.WaitUntilInStatus StateAvailable fetches timeoutSecs

/-- The `wait.Poll` condition loop of `WaitUntilDeleted` (bmh.go lines
547-568): a successful fetch means the resource is still present and polling
continues, a "not found" fetch error ends the wait with success, and any other
fetch error terminates the wait immediately with that error. -/
def waitDeletedLoop (fetches : Nat → GetRes BareMetalHost) : Nat → Nat → WaitRes × Nat
  | idx, 0 => (WaitRes.timeout, idx)
  | idx, fuel + 1 =>
      match fetches idx with
      | .ok _ => waitDeletedLoop fetches (idx + 1) fuel
      | .err e =>
          if e.isNotFound then (WaitRes.success, idx + 1) else (WaitRes.failure e, idx + 1)

/-- `Builder.WaitUntilDeleted` (bmh.go lines 546-571); note that it does not
consult `errorMsg` and never modifies the builder. -/
def Builder.WaitUntilDeleted (builder : Builder) (fetches : Nat → GetRes BareMetalHost)
    (timeoutSecs : Nat) : WaitRes × Nat :=
  waitDeletedLoop fetches 0 timeoutSecs

/-- `Builder.DeleteAndWaitUntilDeleted` (bmh.go lines 534-543): on a delete
error the builder is returned with that error; otherwise nil is returned as
the builder together with the outcome of the deletion wait. -/
def Builder.DeleteAndWaitUntilDeleted (builder : Builder) (getRes : GetRes BareMetalHost)
    (deleteErr : Option GoErr) (fetches : Nat → GetRes BareMetalHost)
    (timeoutSecs : Nat) : Option Builder × WaitRes :=
  let d := builder.Delete getRes deleteErr
  match d.err with
  | some e => (some d.builder, WaitRes.failure e)
  | none => (none, (d.builder.WaitUntilDeleted fetches timeoutSecs).1)

end bmh

namespace hypershift

/-- `hypershiftV1Beta1.NodePoolPlatform`; the Go field `Type` is rendered as
`Type'` because `Type` is a Lean keyword. -/
structure NodePoolPlatform where
  Type' : String
deriving DecidableEq

/-- The agent platform type constant used by `NewNodePoolBuilder`. -/
def AgentPlatform : String := "Agent"

/-- `hypershiftV1Beta1.NodePoolSpec`, restricted to the fields this code sets. -/
structure NodePoolSpec where
  ClusterName : String
  Release : String
  Replicas : Int
  Platform : NodePoolPlatform
deriving DecidableEq

/-- `hypershiftV1Beta1.NodePoolStatus`, restricted to the field this code
reads; the default is the Go zero value. -/
structure NodePoolStatus where
  Replicas : Int := 0
deriving DecidableEq

/-- `hypershiftV1Beta1.NodePool`. -/
structure NodePool where
  ObjectMeta : ObjectMeta
  Spec : NodePoolSpec
  Status : NodePoolStatus := {}
deriving DecidableEq

/-- The `NodePoolBuilder` (nodepool.go lines 20-29). As for bmh, the api
client is abstracted to whether it is nil, the one bit `validate` observes. -/
structure NodePoolBuilder where
  Definition : Option NodePool
  Object : Option NodePool
  errorMsg : String
  apiClientNil : Bool
deriving DecidableEq

/-- `NewNodePoolBuilder` (nodepool.go lines 33-89); `agentNamespace` is only
logged by the source and affects nothing. -/
def NewNodePoolBuilder (apiClientNil : Bool)
    (name nsname clusterName agentNamespace release : String) (replicas : Int) :
    NodePoolBuilder :=
  let builder : NodePoolBuilder :=
    { apiClientNil := apiClientNil
      Definition := some
        { ObjectMeta := { Name := name, Namespace := nsname }
          Spec :=
            { ClusterName := clusterName
              Release := release
              Replicas := replicas
              Platform := { Type' := AgentPlatform } } }
      Object := none
      errorMsg := "" }
  let builder := if name == "" then
    { builder with errorMsg := "nodepool 'name' cannot be empty" } else builder
  let builder := if nsname == "" then
    { builder with errorMsg := "nodepool 'namespace' cannot be empty" } else builder
  let builder := if clusterName == "" then
    { builder with errorMsg := "nodepool 'clusterName' cannot be empty" } else builder
  let builder := if release == "" then
    { builder with errorMsg := "nodepool 'release' cannot be empty" } else builder
  builder

/-- `NodePoolBuilder.validate` (nodepool.go lines 207-235), which mutates the
builder (overwriting `errorMsg` when the definition or the api client is
missing) and returns validity plus the error made from `errorMsg`. The Go
nil-receiver branch has no counterpart for value-typed builders. -/
def NodePoolBuilder.validate (builder : NodePoolBuilder) :
    NodePoolBuilder × Bool × Option GoErr :=
  let builder := if builder.Definition.isNone then
    { builder with errorMsg := UndefinedCrdObjectErrString "NodePool" } else builder
  let builder := if builder.apiClientNil then
    { builder with errorMsg := "NodePool builder cannot have nil apiClient" } else builder
  if builder.errorMsg != "" then
    (builder, false, some { msg := builder.errorMsg, isNotFound := false })
  else (builder, true, none)

/-- `NodePoolBuilder.WithReplicas` (nodepool.go lines 91-102). -/
def NodePoolBuilder.WithReplicas (builder : NodePoolBuilder) (replicas : Int) :
    NodePoolBuilder :=
  let v := builder.validate
  if !v.2.1 then v.1
  else
    match v.1.Definition with
    | some d =>
        { v.1 with
          Definition := some { d with Spec := { d.Spec with Replicas := replicas } } }
    | none => v.1

/-- `NodePoolBuilder.Get` (nodepool.go lines 141-160): validates, then returns
the fetched object or the fetch error unchanged, together with the (possibly
validate-mutated) builder. -/
def NodePoolBuilder.Get (builder : NodePoolBuilder) (res : GetRes NodePool) :
    NodePoolBuilder × Option NodePool × Option GoErr :=
  let v := builder.validate
  if !v.2.1 then (v.1, none, v.2.2)
  else
    match res with
    | .ok obj => (v.1, some obj, none)
    | .err e => (v.1, none, some e)

/-- `NodePoolBuilder.Exists` (nodepool.go lines 191-203). -/
def NodePoolBuilder.Exists (builder : NodePoolBuilder) (res : GetRes NodePool) :
    NodePoolBuilder × Bool :=
  let v := builder.validate
  if !v.2.1 then (v.1, false)
  else
    let g := v.1.Get res
    ({ g.1 with Object := g.2.1 }, g.2.2.isNone || !(IsNotFound g.2.2))

/-- Whether a fetch outcome satisfies the condition of `WaitForReplicas`. -/
def satisfiesReplicas (replicas : Int) : GetRes NodePool → Bool
  | .ok obj => obj.Status.Replicas == replicas
  | .err _ => false

/-- The `wait.PollImmediate` condition loop of `WaitForReplicas` (nodepool.go
lines 172-181): the fetch result is stored in `Object`, a fetch error is
swallowed and polling continues, and a successful fetch succeeds exactly when
the observed replica count equals the target. The impossible case of a nil
object with a nil error (a nil dereference in Go) continues polling. -/
def npWaitLoop (replicas : Int) (fetches : Nat → GetRes NodePool) :
    NodePoolBuilder → Nat → Nat → NodePoolBuilder × WaitRes × Nat
  | builder, idx, 0 => (builder, WaitRes.timeout, idx)
  | builder, idx, fuel + 1 =>
      let g := builder.Get (fetches idx)
      let b := { g.1 with Object := g.2.1 }
      match g.2.2 with
      | some _ => npWaitLoop replicas fetches b (idx + 1) fuel
      | none =>
          match g.2.1 with
          | some obj =>
              if obj.Status.Replicas == replicas then (b, WaitRes.success, idx + 1)
              else npWaitLoop replicas fetches b (idx + 1) fuel
          | none => npWaitLoop replicas fetches b (idx + 1) fuel

/-- `NodePoolBuilder.WaitForReplicas` (nodepool.go lines 163-188): on a
validation failure the builder and the validation error are returned; after
the poll, success returns the builder and nil error while a timeout returns a
nil builder with the timeout error. -/
def NodePoolBuilder.WaitForReplicas (builder : NodePoolBuilder) (replicas : Int)
    (fetches : Nat → GetRes NodePool) (timeoutSecs : Nat) :
    Option NodePoolBuilder × WaitRes × Nat :=
  let v := builder.validate
  if !v.2.1 then
    (some v.1, (match v.2.2 with | some e => WaitRes.failure e | none => WaitRes.success), 0)
  else
    let r := npWaitLoop replicas fetches v.1 0 timeoutSecs
    if r.2.1 = WaitRes.success then (some r.1, r.2.1, r.2.2)
    else (none, r.2.1, r.2.2)

/-- Validity of a node-pool builder as `validate` checks it: clean error
state, a definition present, and a non-nil api client. -/
def npValid (builder : NodePoolBuilder) : Prop :=
  builder.errorMsg = "" ∧ builder.Definition.isSome ∧ builder.apiClientNil = false

instance (builder : NodePoolBuilder) : Decidable (npValid builder) := by
  unfold npValid; infer_instance

end hypershift

/-- Spec-side formulation of a constructor's validation: a list of checks in
their fixed order, each a fired flag paired with its error message. -/
def lastFailing (checks : List (Bool × String)) : String :=
  checks.foldl (fun acc c => if c.1 then c.2 else acc) ""

/-- Spec-side check list of `bmh.NewBuilder`, in source order. -/
def bmhChecks (name nsname bmcAddress bmcSecretName bootMacAddress bootMode : String) :
    List (Bool × String) :=
  [(name == "", "BMH 'name' cannot be empty"),
   (nsname == "", "BMH 'nsname' cannot be empty"),
   (bmcAddress == "", "BMH 'bmcAddress' cannot be empty"),
   (bmcSecretName == "", "BMH 'bmcSecretName' cannot be empty"),
   (!(bmh.bootModeAcceptable.contains bootMode), "Not acceptable 'bootMode' value"),
   (bootMacAddress == "", "BMH 'bootMacAddress' cannot be empty")]

/-- Spec-side check list of `hypershift.NewNodePoolBuilder`, in source order. -/
def npChecks (name nsname clusterName release : String) : List (Bool × String) :=
  [(name == "", "nodepool 'name' cannot be empty"),
   (nsname == "", "nodepool 'namespace' cannot be empty"),
   (clusterName == "", "nodepool 'clusterName' cannot be empty"),
   (release == "", "nodepool 'release' cannot be empty")]

/-- A clean bmh builder produced by the constructor from valid arguments. -/
def bmhClean : bmh.Builder :=
  bmh.NewBuilder false "host0" "ns0" "ipmi://h0" "bmc-secret" "aa:bb:cc:dd:ee:ff" "UEFI"

/-- A bmh builder whose deferred error slot was set by a mutator. -/
def bmhDirty : bmh.Builder := bmhClean.WithRootDeviceDeviceName ""

/-- A concrete remote bare-metal host whose provisioning state is `available`. -/
def bmhAvailable : bmh.BareMetalHost :=
  { ObjectMeta := { Name := "host0", Namespace := "ns0" }
    Spec :=
      { BMC := { Address := "ipmi://h0", CredentialsName := "bmc-secret"
                 DisableCertificateVerification := true }
        BootMode := "UEFI"
        BootMACAddress := "aa:bb:cc:dd:ee:ff"
        Online := true
        ExternallyProvisioned := false
        RootDeviceHints := none }
    Status := { Provisioning := { State := "available" } } }

/-- The same host once its provisioning state has reached `provisioned`. -/
def bmhProvisioned : bmh.BareMetalHost :=
  { bmhAvailable with Status := { Provisioning := { State := "provisioned" } } }

/-- A clean node-pool builder produced by the constructor from valid arguments. -/
def npClean : hypershift.NodePoolBuilder :=
  hypershift.NewNodePoolBuilder false "np0" "ns0" "cluster0" "agents" "4.14.0" 2

/-- A node-pool builder whose deferred error slot was set by the constructor. -/
def npDirty : hypershift.NodePoolBuilder :=
  hypershift.NewNodePoolBuilder false "np0" "ns0" "" "agents" "4.14.0" 2

/-- A concrete remote node pool with the given observed replica count. -/
def npObj (r : Int) : hypershift.NodePool :=
  { ObjectMeta := { Name := "np0", Namespace := "ns0" }
    Spec :=
      { ClusterName := "cluster0"
        Release := "4.14.0"
        Replicas := 2
        Platform := { Type' := hypershift.AgentPlatform } }
    Status := { Replicas := r } }

/-- A valid node-pool builder passes `validate` unchanged. -/
theorem validate_of_valid (b : hypershift.NodePoolBuilder) (h : hypershift.npValid b) :
    b.validate = (b, true, none) := by
  obtain ⟨h1, h2, h3⟩ := h
  have hn : b.Definition.isNone = false := by
    simp [Option.isNone_iff_eq_none]
    exact h2
  simp [hypershift.NodePoolBuilder.validate, hn, h3, h1]

/-- C1: for every builder whose validation state is clean, `Exists()` returns
false if and only if the fetch fails with an error carrying the "not found"
classification; any other fetch outcome (success, or failure with any other
error) makes `Exists()` return true. -/
theorem exists_false_iff_fetch_not_found :
    (∀ (b : bmh.Builder) (res : GetRes bmh.BareMetalHost),
        b.errorMsg = "" →
        ((b.Exists res).2 = false ↔ ∃ e, res = GetRes.err e ∧ e.isNotFound = true)) ∧
    (∀ (b : hypershift.NodePoolBuilder) (res : GetRes hypershift.NodePool),
        hypershift.npValid b →
        ((b.Exists res).2 = false ↔ ∃ e, res = GetRes.err e ∧ e.isNotFound = true)) := by
  constructor
  · intro b res _h
    cases res with
    | ok obj => simp [bmh.Builder.Exists, bmh.Builder.Get, IsNotFound]
    | err e => simp [bmh.Builder.Exists, bmh.Builder.Get, IsNotFound]
  · intro b res h
    have hv := validate_of_valid b h
    cases res with
    | ok obj =>
        simp [hypershift.NodePoolBuilder.Exists, hypershift.NodePoolBuilder.Get, hv, IsNotFound]
    | err e =>
        simp [hypershift.NodePoolBuilder.Exists, hypershift.NodePoolBuilder.Get, hv, IsNotFound]

/-- Witness for C1 at concrete clean builders: a "not found" fetch error makes
the bmh `Exists` return false, and a non-"not found" fetch error makes the
node-pool `Exists` return true. -/
theorem exists_false_iff_fetch_not_found_witness :
    bmhClean.errorMsg = "" ∧
    (bmhClean.Exists (GetRes.err { msg := "gone", isNotFound := true })).2 = false ∧
    hypershift.npValid npClean ∧
    (npClean.Exists (GetRes.err { msg := "other", isNotFound := false })).2 = true := by
  refine ⟨by decide, ?_, by decide, ?_⟩
  · exact (exists_false_iff_fetch_not_found.1 bmhClean _ (by decide)).mpr
      ⟨{ msg := "gone", isNotFound := true }, rfl, rfl⟩
  · have := (exists_false_iff_fetch_not_found.2 npClean
      (GetRes.err { msg := "other", isNotFound := false }) (by decide))
    by_contra hc
    have hf : (npClean.Exists (GetRes.err { msg := "other", isNotFound := false })).2 = false := by
      cases hb : (npClean.Exists (GetRes.err { msg := "other", isNotFound := false })).2
      · rfl
      · exact absurd hb hc
    obtain ⟨e, he, hnf⟩ := this.mp hf
    cases he
    exact absurd hnf (by decide)

/-- C2: during the status-polling waits (`WaitUntilInStatus` and
`WaitForReplicas`) a fetch error is swallowed and polling continues with the
next cycle, while during the deletion wait a "not found" fetch error ends the
wait with success, any other fetch error terminates the wait immediately with
that error, and a successful fetch continues polling. -/
theorem polling_fetch_error_policy :
    (∀ (b : bmh.Builder) (st : bmh.ProvisioningState) (f : Nat → GetRes bmh.BareMetalHost)
        (i n : Nat) (e : GoErr), f i = GetRes.err e →
        bmh.waitLoop st f b i (n + 1) =
          bmh.waitLoop st f { b with Object := none } (i + 1) n) ∧
    (∀ (b : hypershift.NodePoolBuilder) (r : Int) (f : Nat → GetRes hypershift.NodePool)
        (i n : Nat) (e : GoErr), hypershift.npValid b → f i = GetRes.err e →
        hypershift.npWaitLoop r f b i (n + 1) =
          hypershift.npWaitLoop r f { b with Object := none } (i + 1) n) ∧
    (∀ (f : Nat → GetRes bmh.BareMetalHost) (i n : Nat) (e : GoErr),
        e.isNotFound = true → f i = GetRes.err e →
        bmh.waitDeletedLoop f i (n + 1) = (WaitRes.success, i + 1)) ∧
    (∀ (f : Nat → GetRes bmh.BareMetalHost) (i n : Nat) (e : GoErr),
        e.isNotFound = false → f i = GetRes.err e →
        bmh.waitDeletedLoop f i (n + 1) = (WaitRes.failure e, i + 1)) ∧
    (∀ (f : Nat → GetRes bmh.BareMetalHost) (i n : Nat) (obj : bmh.BareMetalHost),
        f i = GetRes.ok obj →
        bmh.waitDeletedLoop f i (n + 1) = bmh.waitDeletedLoop f (i + 1) n) := by
  refine ⟨?_, ?_, ?_, ?_, ?_⟩
  · intro b st f i n e h
    simp [bmh.waitLoop, h]
  · intro b r f i n e hv h
    simp [hypershift.npWaitLoop, hypershift.NodePoolBuilder.Get, validate_of_valid b hv, h]
  · intro f i n e hnf h
    simp [bmh.waitDeletedLoop, h, hnf]
  · intro f i n e hnf h
    simp [bmh.waitDeletedLoop, h, hnf]
  · intro f i n obj h
    simp [bmh.waitDeletedLoop, h]

/-- Witness for C2 at concrete builders and fetch sequences. -/
theorem polling_fetch_error_policy_witness :
    (bmh.waitLoop "provisioned" (fun _ => GetRes.err { msg := "boom", isNotFound := false })
        bmhClean 0 3 =
      bmh.waitLoop "provisioned" (fun _ => GetRes.err { msg := "boom", isNotFound := false })
        { bmhClean with Object := none } 1 2) ∧
    (hypershift.npWaitLoop 2 (fun _ => GetRes.err { msg := "boom", isNotFound := false })
        npClean 0 3 =
      hypershift.npWaitLoop 2 (fun _ => GetRes.err { msg := "boom", isNotFound := false })
        { npClean with Object := none } 1 2) ∧
    bmh.waitDeletedLoop (fun _ => GetRes.err { msg := "gone", isNotFound := true }) 0 3 =
      (WaitRes.success, 1) ∧
    bmh.waitDeletedLoop (fun _ => GetRes.err { msg := "boom", isNotFound := false }) 0 3 =
      (WaitRes.failure { msg := "boom", isNotFound := false }, 1) ∧
    bmh.waitDeletedLoop (fun _ => GetRes.ok bmhAvailable) 0 3 =
      bmh.waitDeletedLoop (fun _ => GetRes.ok bmhAvailable) 1 2 :=
  ⟨polling_fetch_error_policy.1 bmhClean "provisioned" _ 0 2 _ rfl,
   polling_fetch_error_policy.2.1 npClean 2 _ 0 2 _ (by decide) rfl,
   polling_fetch_error_policy.2.2.1 _ 0 2 _ rfl rfl,
   polling_fetch_error_policy.2.2.2.1 _ 0 2 _ rfl rfl,
   polling_fetch_error_policy.2.2.2.2 _ 0 2 bmhAvailable rfl⟩

/-- Counterexample to C3: on a bmh builder whose deferred error slot is
non-empty, `Get` does not short-circuit — it consumes a fetch and returns the
fetched object with no error at all, rather than an error carrying the stored
message. -/
theorem deferred_error_not_shortcircuiting :
    bmhDirty.errorMsg = "the baremetalhost rootDeviceHint deviceName cannot be empty" ∧
    bmhDirty.Get (GetRes.ok bmhAvailable) = (some bmhAvailable, none) :=
  ⟨by decide, by decide⟩

/-- A node-pool builder with an error set but definition and client present
fails `validate` with exactly the stored message. -/
theorem validate_of_dirty (b : hypershift.NodePoolBuilder) (h : b.errorMsg ≠ "")
    (h2 : b.Definition.isSome = true) (h3 : b.apiClientNil = false) :
    b.validate = (b, false, some { msg := b.errorMsg, isNotFound := false }) := by
  have hn : b.Definition.isNone = false := by
    simp [Option.isNone_iff_eq_none]
    exact h2
  simp [hypershift.NodePoolBuilder.validate, hn, h3, h]

/-- `Create` on an error-state bmh builder returns exactly the stored message
without consuming any fetch. -/
theorem create_dirty (b : bmh.Builder) (gr : GetRes bmh.BareMetalHost) (ce : Option GoErr)
    (h : b.errorMsg ≠ "") :
    b.Create gr ce = (none, some { msg := b.errorMsg, isNotFound := false }) := by
  simp [bmh.Builder.Create, h]

/-- C3 as amended: with a non-empty error state, the bmh `Create` and
`WaitUntilInStatus` short-circuit with an error whose message is exactly the
stored error state (for every possible cluster response, hence without
contacting the cluster), and the node-pool `Get`, `Exists`, `WaitForReplicas`
and `WithReplicas` do the same through `validate` whenever the definition and
api client are present; the bmh `Get`, `Exists`, `Delete` and
`WaitUntilDeleted` do not consult the error state at all. -/
theorem deferred_error_shortcircuit_scope :
    (∀ (b : bmh.Builder) (gr : GetRes bmh.BareMetalHost) (ce : Option GoErr),
        b.errorMsg ≠ "" →
        b.Create gr ce = (none, some { msg := b.errorMsg, isNotFound := false })) ∧
    (∀ (b : bmh.Builder) (st : bmh.ProvisioningState) (f : Nat → GetRes bmh.BareMetalHost)
        (t : Nat), b.errorMsg ≠ "" →
        b.WaitUntilInStatus st f t =
          (b, WaitRes.failure { msg := b.errorMsg, isNotFound := false }, 0)) ∧
    (∀ (b : hypershift.NodePoolBuilder) (res : GetRes hypershift.NodePool),
        b.errorMsg ≠ "" → b.Definition.isSome = true → b.apiClientNil = false →
        b.Get res = (b, none, some { msg := b.errorMsg, isNotFound := false })) ∧
    (∀ (b : hypershift.NodePoolBuilder) (res : GetRes hypershift.NodePool),
        b.errorMsg ≠ "" → b.Definition.isSome = true → b.apiClientNil = false →
        b.Exists res = (b, false)) ∧
    (∀ (b : hypershift.NodePoolBuilder) (r : Int) (f : Nat → GetRes hypershift.NodePool)
        (t : Nat), b.errorMsg ≠ "" → b.Definition.isSome = true → b.apiClientNil = false →
        b.WaitForReplicas r f t =
          (some b, WaitRes.failure { msg := b.errorMsg, isNotFound := false }, 0)) ∧
    (∀ (b : hypershift.NodePoolBuilder) (r : Int),
        b.errorMsg ≠ "" → b.Definition.isSome = true → b.apiClientNil = false →
        b.WithReplicas r = b) := by
  refine ⟨create_dirty, ?_, ?_, ?_, ?_, ?_⟩
  · intro b st f t h
    simp [bmh.Builder.WaitUntilInStatus, h]
  · intro b res h h2 h3
    simp [hypershift.NodePoolBuilder.Get, validate_of_dirty b h h2 h3]
  · intro b res h h2 h3
    simp [hypershift.NodePoolBuilder.Exists, validate_of_dirty b h h2 h3]
  · intro b r f t h h2 h3
    simp [hypershift.NodePoolBuilder.WaitForReplicas, validate_of_dirty b h h2 h3]
  · intro b r h h2 h3
    simp [hypershift.NodePoolBuilder.WithReplicas, validate_of_dirty b h h2 h3]

/-- Witness for the amended C3 at concrete error-state builders. -/
theorem deferred_error_shortcircuit_scope_witness :
    bmhDirty.Create (GetRes.ok bmhAvailable) none =
      (none, some { msg := bmhDirty.errorMsg, isNotFound := false }) ∧
    npDirty.Get (GetRes.ok (npObj 2)) =
      (npDirty, none, some { msg := npDirty.errorMsg, isNotFound := false }) :=
  ⟨deferred_error_shortcircuit_scope.1 bmhDirty _ none (by decide),
   deferred_error_shortcircuit_scope.2.2.1 npDirty _ (by decide) (by decide) (by decide)⟩

/-- The message produced by `pkg/msg.UndefinedCrdObjectErrString` is never
empty. -/
theorem undefinedCrd_ne_empty (s : String) : UndefinedCrdObjectErrString s ≠ "" := by
  intro h
  have hl := congrArg String.length h
  simp [UndefinedCrdObjectErrString, String.length_append] at hl
  exact absurd hl.1 (by decide)

/-- `validate` on a builder with a non-empty error state fails, keeps the
error state non-empty, and reports exactly the (possibly overwritten) stored
message. -/
theorem validate_of_ne (b : hypershift.NodePoolBuilder) (h : b.errorMsg ≠ "") :
    (b.validate).2.1 = false ∧ (b.validate).1.errorMsg ≠ "" ∧
    (b.validate).2.2 = some { msg := (b.validate).1.errorMsg, isNotFound := false } := by
  unfold hypershift.NodePoolBuilder.validate
  by_cases h1 : b.Definition.isNone = true <;> by_cases h2 : b.apiClientNil = true <;>
    simp [h1, h2, h, undefinedCrd_ne_empty]

/-- The status-wait poll loop never touches the error state. -/
theorem waitLoop_errorMsg (st : bmh.ProvisioningState) (f : Nat → GetRes bmh.BareMetalHost) :
    ∀ (n i : Nat) (b : bmh.Builder), (bmh.waitLoop st f b i n).1.errorMsg = b.errorMsg := by
  intro n
  induction n with
  | zero => intro i b; rfl
  | succ n ih =>
      intro i b
      rcases hf : f i with obj | e
      · cases hs : obj.Status.Provisioning.State == st <;> simp [bmh.waitLoop, hf, hs, ih]
      · simp [bmh.waitLoop, hf, ih]

/-- The replica-wait poll loop keeps a non-empty error state non-empty. -/
theorem npWaitLoop_keeps (r : Int) (f : Nat → GetRes hypershift.NodePool) :
    ∀ (n i : Nat) (b : hypershift.NodePoolBuilder), b.errorMsg ≠ "" →
      (hypershift.npWaitLoop r f b i n).1.errorMsg ≠ "" := by
  intro n
  induction n with
  | zero => intro i b h; exact h
  | succ n ih =>
      intro i b h
      obtain ⟨hv1, hv2, hv3⟩ := validate_of_ne b h
      simp [hypershift.npWaitLoop, hypershift.NodePoolBuilder.Get, hv1, hv3]
      exact ih (i + 1) _ hv2

/-- `Delete` never touches the error state of the builder it returns. -/
theorem delete_keeps_errorMsg (b : bmh.Builder) (gr : GetRes bmh.BareMetalHost)
    (de : Option GoErr) : (b.Delete gr de).builder.errorMsg = b.errorMsg := by
  rcases gr with obj | e
  · rcases de with _ | e2 <;>
      simp [bmh.Builder.Delete, bmh.Builder.Exists, bmh.Builder.Get, IsNotFound]
  · rcases de with _ | e2 <;> by_cases hn : e.isNotFound = true <;>
      simp [bmh.Builder.Delete, bmh.Builder.Exists, bmh.Builder.Get, IsNotFound, hn]

/-- C4: once the error state of a builder is non-empty, no operation resets it
to empty; the operations that return a builder either preserve the error
message exactly or (the mutators and `validate`) may overwrite it with
another non-empty message. Operations returning an optional builder are read
through `Option.getD`, so the statement covers every builder they can return. -/
theorem error_state_never_cleared :
    (∀ (b : bmh.Builder) (v : String), b.errorMsg ≠ "" →
        (b.WithRootDeviceDeviceName v).errorMsg ≠ "") ∧
    (∀ (b : bmh.Builder) (v : String), b.errorMsg ≠ "" →
        (b.WithRootDeviceHTCL v).errorMsg ≠ "") ∧
    (∀ (b : bmh.Builder) (v : String), b.errorMsg ≠ "" →
        (b.WithRootDeviceModel v).errorMsg ≠ "") ∧
    (∀ (b : bmh.Builder) (v : String), b.errorMsg ≠ "" →
        (b.WithRootDeviceVendor v).errorMsg ≠ "") ∧
    (∀ (b : bmh.Builder) (v : String), b.errorMsg ≠ "" →
        (b.WithRootDeviceSerialNumber v).errorMsg ≠ "") ∧
    (∀ (b : bmh.Builder) (v : Int), b.errorMsg ≠ "" →
        (b.WithRootDeviceMinSizeGigabytes v).errorMsg ≠ "") ∧
    (∀ (b : bmh.Builder) (v : String), b.errorMsg ≠ "" →
        (b.WithRootDeviceWWN v).errorMsg ≠ "") ∧
    (∀ (b : bmh.Builder) (v : String), b.errorMsg ≠ "" →
        (b.WithRootDeviceWWNWithExtension v).errorMsg ≠ "") ∧
    (∀ (b : bmh.Builder) (v : String), b.errorMsg ≠ "" →
        (b.WithRootDeviceWWNVendorExtension v).errorMsg ≠ "") ∧
    (∀ (b : bmh.Builder) (v : Bool), b.errorMsg ≠ "" →
        (b.WithRootDeviceRotationalDisk v).errorMsg ≠ "") ∧
    (∀ (b : bmh.Builder) (opts : List (Option bmh.AdditionalOptions)), b.errorMsg ≠ "" →
        (b.WithOptions opts).errorMsg ≠ "") ∧
    (∀ (b : bmh.Builder) (gr : GetRes bmh.BareMetalHost) (ce : Option GoErr),
        ((b.Create gr ce).1.getD b).errorMsg = b.errorMsg) ∧
    (∀ (b : bmh.Builder) (res : GetRes bmh.BareMetalHost),
        (b.Exists res).1.errorMsg = b.errorMsg) ∧
    (∀ (b : bmh.Builder) (gr : GetRes bmh.BareMetalHost) (de : Option GoErr),
        (b.Delete gr de).builder.errorMsg = b.errorMsg) ∧
    (∀ (b : bmh.Builder) (st : bmh.ProvisioningState) (f : Nat → GetRes bmh.BareMetalHost)
        (t : Nat), (b.WaitUntilInStatus st f t).1.errorMsg = b.errorMsg) ∧
    (∀ (b : bmh.Builder) (gr : GetRes bmh.BareMetalHost) (de : Option GoErr)
        (f : Nat → GetRes bmh.BareMetalHost) (t : Nat),
        ((b.DeleteAndWaitUntilDeleted gr de f t).1.getD b).errorMsg = b.errorMsg) ∧
    (∀ (b : hypershift.NodePoolBuilder), b.errorMsg ≠ "" →
        (b.validate).1.errorMsg ≠ "") ∧
    (∀ (b : hypershift.NodePoolBuilder) (r : Int), b.errorMsg ≠ "" →
        (b.WithReplicas r).errorMsg ≠ "") ∧
    (∀ (b : hypershift.NodePoolBuilder) (res : GetRes hypershift.NodePool), b.errorMsg ≠ "" →
        (b.Get res).1.errorMsg ≠ "") ∧
    (∀ (b : hypershift.NodePoolBuilder) (res : GetRes hypershift.NodePool), b.errorMsg ≠ "" →
        (b.Exists res).1.errorMsg ≠ "") ∧
    (∀ (b : hypershift.NodePoolBuilder) (r : Int) (f : Nat → GetRes hypershift.NodePool)
        (t : Nat), b.errorMsg ≠ "" →
        ((b.WaitForReplicas r f t).1.getD b).errorMsg ≠ "") := by
  refine ⟨?_, ?_, ?_, ?_, ?_, ?_, ?_, ?_, ?_, ?_, ?_, ?_, ?_, ?_, ?_, ?_, ?_, ?_, ?_, ?_, ?_⟩
  · intro b v h
    unfold bmh.Builder.WithRootDeviceDeviceName
    split_ifs <;> simp_all [undefinedCrd_ne_empty]
  · intro b v h
    unfold bmh.Builder.WithRootDeviceHTCL
    split_ifs <;> simp_all [undefinedCrd_ne_empty]
  · intro b v h
    unfold bmh.Builder.WithRootDeviceModel
    split_ifs <;> simp_all [undefinedCrd_ne_empty]
  · intro b v h
    unfold bmh.Builder.WithRootDeviceVendor
    split_ifs <;> simp_all [undefinedCrd_ne_empty]
  · intro b v h
    unfold bmh.Builder.WithRootDeviceSerialNumber
    split_ifs <;> simp_all [undefinedCrd_ne_empty]
  · intro b v h
    unfold bmh.Builder.WithRootDeviceMinSizeGigabytes
    split_ifs <;> simp_all [undefinedCrd_ne_empty]
  · intro b v h
    unfold bmh.Builder.WithRootDeviceWWN
    split_ifs <;> simp_all [undefinedCrd_ne_empty]
  · intro b v h
    unfold bmh.Builder.WithRootDeviceWWNWithExtension
    split_ifs <;> simp_all [undefinedCrd_ne_empty]
  · intro b v h
    unfold bmh.Builder.WithRootDeviceWWNVendorExtension
    split_ifs <;> simp_all [undefinedCrd_ne_empty]
  · intro b v h
    unfold bmh.Builder.WithRootDeviceRotationalDisk
    split_ifs <;> simp_all [undefinedCrd_ne_empty]
  · intro b opts h
    unfold bmh.Builder.WithOptions
    split_ifs <;> simp_all [undefinedCrd_ne_empty]
  · intro b gr ce
    by_cases h : (b.errorMsg != "") = true
    · simp [bmh.Builder.Create, h]
    · rcases gr with obj | e
      · rcases ce with _ | e2 <;>
          simp [bmh.Builder.Create, bmh.Builder.Exists, bmh.Builder.Get, IsNotFound, h]
      · rcases ce with _ | e2 <;> by_cases hn : e.isNotFound = true <;>
          simp [bmh.Builder.Create, bmh.Builder.Exists, bmh.Builder.Get, IsNotFound, h, hn]
  · intro b res
    rcases res with obj | e <;> simp [bmh.Builder.Exists, bmh.Builder.Get]
  · exact delete_keeps_errorMsg
  · intro b st f t
    unfold bmh.Builder.WaitUntilInStatus
    split_ifs <;> simp [waitLoop_errorMsg]
  · intro b gr de f t
    rcases hd : (b.Delete gr de).err with _ | e <;>
      simp [bmh.Builder.DeleteAndWaitUntilDeleted, hd, delete_keeps_errorMsg]
  · intro b h
    exact (validate_of_ne b h).2.1
  · intro b r h
    obtain ⟨hv1, hv2, _⟩ := validate_of_ne b h
    simp [hypershift.NodePoolBuilder.WithReplicas, hv1]
    exact hv2
  · intro b res h
    obtain ⟨hv1, hv2, _⟩ := validate_of_ne b h
    simp [hypershift.NodePoolBuilder.Get, hv1]
    exact hv2
  · intro b res h
    obtain ⟨hv1, hv2, _⟩ := validate_of_ne b h
    simp [hypershift.NodePoolBuilder.Exists, hv1]
    exact hv2
  · intro b r f t h
    obtain ⟨hv1, hv2, _⟩ := validate_of_ne b h
    simp [hypershift.NodePoolBuilder.WaitForReplicas, hv1]
    exact hv2

/-- Witness for C4 at concrete error-state builders. -/
theorem error_state_never_cleared_witness :
    (bmhDirty.WithRootDeviceDeviceName "sda").errorMsg ≠ "" ∧
    (bmhDirty.WithRootDeviceHTCL "0:0:0:0").errorMsg ≠ "" ∧
    (bmhDirty.WithRootDeviceModel "m").errorMsg ≠ "" ∧
    (bmhDirty.WithRootDeviceVendor "v").errorMsg ≠ "" ∧
    (bmhDirty.WithRootDeviceSerialNumber "sn").errorMsg ≠ "" ∧
    (bmhDirty.WithRootDeviceMinSizeGigabytes 10).errorMsg ≠ "" ∧
    (bmhDirty.WithRootDeviceWWN "w").errorMsg ≠ "" ∧
    (bmhDirty.WithRootDeviceWWNWithExtension "we").errorMsg ≠ "" ∧
    (bmhDirty.WithRootDeviceWWNVendorExtension "wve").errorMsg ≠ "" ∧
    (bmhDirty.WithRootDeviceRotationalDisk true).errorMsg ≠ "" ∧
    (bmhDirty.WithOptions []).errorMsg ≠ "" ∧
    (npDirty.validate).1.errorMsg ≠ "" ∧
    (npDirty.WithReplicas 3).errorMsg ≠ "" ∧
    (npDirty.Get (GetRes.ok (npObj 2))).1.errorMsg ≠ "" ∧
    (npDirty.Exists (GetRes.ok (npObj 2))).1.errorMsg ≠ "" ∧
    ((npDirty.WaitForReplicas 3 (fun _ => GetRes.ok (npObj 2)) 2).1.getD npDirty).errorMsg
      ≠ "" := by
  have h := error_state_never_cleared
  have hd : bmhDirty.errorMsg ≠ "" := by decide
  have hn : npDirty.errorMsg ≠ "" := by decide
  exact ⟨h.1 _ _ hd, h.2.1 _ _ hd, h.2.2.1 _ _ hd, h.2.2.2.1 _ _ hd, h.2.2.2.2.1 _ _ hd,
    h.2.2.2.2.2.1 _ _ hd, h.2.2.2.2.2.2.1 _ _ hd, h.2.2.2.2.2.2.2.1 _ _ hd,
    h.2.2.2.2.2.2.2.2.1 _ _ hd, h.2.2.2.2.2.2.2.2.2.1 _ _ hd,
    h.2.2.2.2.2.2.2.2.2.2.1 _ _ hd,
    h.2.2.2.2.2.2.2.2.2.2.2.2.2.2.2.2.1 _ hn,
    h.2.2.2.2.2.2.2.2.2.2.2.2.2.2.2.2.2.1 _ _ hn,
    h.2.2.2.2.2.2.2.2.2.2.2.2.2.2.2.2.2.2.1 _ _ hn,
    h.2.2.2.2.2.2.2.2.2.2.2.2.2.2.2.2.2.2.2.1 _ _ hn,
    h.2.2.2.2.2.2.2.2.2.2.2.2.2.2.2.2.2.2.2.2 _ _ _ _ hn⟩

/-- The bmh constructor errorMsg equals the message of the last failing check
of the spec-side check list. -/
theorem newBuilder_errorMsg (api : Bool) (name nsname a s mac mode : String) :
    (bmh.NewBuilder api name nsname a s mac mode).errorMsg =
      lastFailing (bmhChecks name nsname a s mac mode) := by
  simp only [bmh.NewBuilder, bmhChecks, lastFailing, List.foldl]
  cases h1 : name == "" <;> cases h2 : nsname == "" <;> cases h3 : a == "" <;>
    cases h4 : s == "" <;> cases h5 : !(bmh.bootModeAcceptable.contains mode) <;>
    cases h6 : mac == "" <;> simp [h1, h2, h3, h4, h5, h6]

/-- The node-pool constructor errorMsg equals the message of the last failing
check of the spec-side check list. -/
theorem newNodePoolBuilder_errorMsg (api : Bool) (name nsname cl ans rel : String)
    (rep : Int) :
    (hypershift.NewNodePoolBuilder api name nsname cl ans rel rep).errorMsg =
      lastFailing (npChecks name nsname cl rel) := by
  simp only [hypershift.NewNodePoolBuilder, npChecks, lastFailing, List.foldl]
  cases h1 : name == "" <;> cases h2 : nsname == "" <;> cases h3 : cl == "" <;>
    cases h4 : rel == "" <;> simp [h1, h2, h3, h4]

/-- The last-failing-message fold is non-empty whenever the accumulator is
non-empty or some check fires (all messages being non-empty). -/
theorem foldlLast_ne (l : List (Bool × String)) : ∀ acc : String,
    (∀ c ∈ l, c.2 ≠ "") → (acc ≠ "" ∨ ∃ c ∈ l, c.1 = true) →
    l.foldl (fun a c => if c.1 then c.2 else a) acc ≠ "" := by
  induction l with
  | nil =>
      intro acc _ hd
      rcases hd with h | ⟨c, hc, _⟩
      · simpa using h
      · exact absurd hc (List.not_mem_nil c)
  | cons c l ih =>
      intro acc hmsgs hd
      simp only [List.foldl_cons]
      apply ih
      · intro c' hc'
        exact hmsgs c' (List.mem_cons_of_mem c hc')
      · rcases hd with h | ⟨c', hc', hfire⟩
        · left
          cases hcb : c.1 with
          | true =>
              simp only [hcb, if_true]
              exact hmsgs c (List.mem_cons_self c l)
          | false =>
              simpa only [hcb, if_false] using h
        · rcases List.mem_cons.mp hc' with hceq | hmem
          · left
            rw [hceq] at hfire
            simp only [hfire, if_true]
            exact hmsgs c (List.mem_cons_self c l)
          · right
            exact ⟨c', hmem, hfire⟩

/-- The constructors populate the definition and pass the api client through,
whatever the validation outcome. -/
theorem newBuilder_definition (api : Bool) (name nsname a s mac mode : String) :
    (bmh.NewBuilder api name nsname a s mac mode).Definition.isSome = true ∧
    (bmh.NewBuilder api name nsname a s mac mode).apiClientNil = api := by
  simp only [bmh.NewBuilder]
  split_ifs <;> simp

/-- Node-pool analogue of `newBuilder_definition`. -/
theorem newNodePoolBuilder_definition (api : Bool) (name nsname cl ans rel : String)
    (rep : Int) :
    (hypershift.NewNodePoolBuilder api name nsname cl ans rel rep).Definition.isSome = true ∧
    (hypershift.NewNodePoolBuilder api name nsname cl ans rel rep).apiClientNil = api := by
  simp only [hypershift.NewNodePoolBuilder]
  split_ifs <;> simp

/-- Some required bmh constructor argument empty forces a non-empty error
state. -/
theorem c5bmh (api : Bool) (name nsname a s mac mode : String)
    (hdisj : name = "" ∨ nsname = "" ∨ a = "" ∨ s = "" ∨ mac = "") :
    (bmh.NewBuilder api name nsname a s mac mode).errorMsg ≠ "" := by
  rw [newBuilder_errorMsg]
  apply foldlLast_ne
  · intro c hc
    simp [bmhChecks] at hc
    rcases hc with rfl | rfl | rfl | rfl | rfl | rfl <;> simp
  · right
    rcases hdisj with h | h | h | h | h
    · exact ⟨(name == "", "BMH 'name' cannot be empty"), by simp [bmhChecks], by simp [h]⟩
    · exact ⟨(nsname == "", "BMH 'nsname' cannot be empty"), by simp [bmhChecks], by simp [h]⟩
    · exact ⟨(a == "", "BMH 'bmcAddress' cannot be empty"), by simp [bmhChecks], by simp [h]⟩
    · exact ⟨(s == "", "BMH 'bmcSecretName' cannot be empty"), by simp [bmhChecks],
        by simp [h]⟩
    · exact ⟨(mac == "", "BMH 'bootMacAddress' cannot be empty"), by simp [bmhChecks],
        by simp [h]⟩

/-- Some required node-pool constructor argument empty forces a non-empty
error state. -/
theorem c5np (name nsname cl ans rel : String) (rep : Int)
    (hdisj : name = "" ∨ nsname = "" ∨ cl = "" ∨ rel = "") :
    (hypershift.NewNodePoolBuilder false name nsname cl ans rel rep).errorMsg ≠ "" := by
  rw [newNodePoolBuilder_errorMsg]
  apply foldlLast_ne
  · intro c hc
    simp [npChecks] at hc
    rcases hc with rfl | rfl | rfl | rfl <;> simp
  · right
    rcases hdisj with h | h | h | h
    · exact ⟨(name == "", "nodepool 'name' cannot be empty"), by simp [npChecks], by simp [h]⟩
    · exact ⟨(nsname == "", "nodepool 'namespace' cannot be empty"), by simp [npChecks],
        by simp [h]⟩
    · exact ⟨(cl == "", "nodepool 'clusterName' cannot be empty"), by simp [npChecks],
        by simp [h]⟩
    · exact ⟨(rel == "", "nodepool 'release' cannot be empty"), by simp [npChecks],
        by simp [h]⟩

/-- A bmh builder constructed with an empty required name. -/
def bmhNoName : bmh.Builder :=
  bmh.NewBuilder false "" "ns0" "ipmi://h0" "bmc-secret" "aa:bb:cc:dd:ee:ff" "UEFI"

/-- Counterexample to C5: on a bmh builder whose constructor left a deferred
validation message, calling `Delete` first (over a "not found" fetch) returns
the "cannot be deleted" error, not an error with exactly the stored message —
so not every choice of first subsequent operation surfaces the stored
message. -/
theorem required_empty_first_op_not_stored :
    bmhNoName.errorMsg = "BMH 'name' cannot be empty" ∧
    (bmhNoName.Delete (GetRes.err { msg := "nf", isNotFound := true }) none).err =
      some { msg := "bmh cannot be deleted because it does not exist", isNotFound := false } :=
  ⟨by decide, by decide⟩

/-- C5 as amended: a constructor given an empty required field still returns a
builder with a populated definition and a non-empty deferred error message,
and the first subsequent operation that consults the error state (bmh
`Create`; node-pool `Get`) returns an error with exactly that message; the bmh
operations that skip the error state (such as `Delete`) need not. -/
theorem required_empty_sets_deferred_error :
    (∀ (api : Bool) (name nsname bmcAddress bmcSecretName bootMacAddress bootMode : String),
        (name = "" ∨ nsname = "" ∨ bmcAddress = "" ∨ bmcSecretName = "" ∨
          bootMacAddress = "") →
        (bmh.NewBuilder api name nsname bmcAddress bmcSecretName bootMacAddress
            bootMode).Definition.isSome = true ∧
        (bmh.NewBuilder api name nsname bmcAddress bmcSecretName bootMacAddress
            bootMode).errorMsg ≠ "" ∧
        ∀ (gr : GetRes bmh.BareMetalHost) (ce : Option GoErr),
          (bmh.NewBuilder api name nsname bmcAddress bmcSecretName bootMacAddress
              bootMode).Create gr ce =
            (none, some { msg := (bmh.NewBuilder api name nsname bmcAddress bmcSecretName
              bootMacAddress bootMode).errorMsg, isNotFound := false })) ∧
    (∀ (name nsname clusterName agentNamespace release : String) (replicas : Int),
        (name = "" ∨ nsname = "" ∨ clusterName = "" ∨ release = "") →
        (hypershift.NewNodePoolBuilder false name nsname clusterName agentNamespace release
            replicas).Definition.isSome = true ∧
        (hypershift.NewNodePoolBuilder false name nsname clusterName agentNamespace release
            replicas).errorMsg ≠ "" ∧
        ∀ (res : GetRes hypershift.NodePool),
          (hypershift.NewNodePoolBuilder false name nsname clusterName agentNamespace release
              replicas).Get res =
            (hypershift.NewNodePoolBuilder false name nsname clusterName agentNamespace
              release replicas, none,
             some { msg := (hypershift.NewNodePoolBuilder false name nsname clusterName
              agentNamespace release replicas).errorMsg, isNotFound := false })) := by
  constructor
  · intro api name nsname a s mac mode hdisj
    have hne := c5bmh api name nsname a s mac mode hdisj
    exact ⟨(newBuilder_definition api name nsname a s mac mode).1, hne,
      fun gr ce => create_dirty _ gr ce hne⟩
  · intro name nsname cl ans rel rep hdisj
    have hne := c5np name nsname cl ans rel rep hdisj
    have hdef := newNodePoolBuilder_definition false name nsname cl ans rel rep
    refine ⟨hdef.1, hne, fun res => ?_⟩
    simp [hypershift.NodePoolBuilder.Get, validate_of_dirty _ hne hdef.1 hdef.2]

/-- Witness for the amended C5 at concrete constructor calls with an empty
required field. -/
theorem required_empty_sets_deferred_error_witness :
    bmhNoName.Definition.isSome = true ∧ bmhNoName.errorMsg ≠ "" ∧
    bmhNoName.Create (GetRes.err { msg := "nf", isNotFound := true }) none =
      (none, some { msg := bmhNoName.errorMsg, isNotFound := false }) ∧
    npDirty.Definition.isSome = true ∧ npDirty.errorMsg ≠ "" ∧
    npDirty.Get (GetRes.err { msg := "nf", isNotFound := true }) =
      (npDirty, none, some { msg := npDirty.errorMsg, isNotFound := false }) := by
  have h1 := required_empty_sets_deferred_error.1 false "" "ns0" "ipmi://h0" "bmc-secret"
    "aa:bb:cc:dd:ee:ff" "UEFI" (Or.inl rfl)
  have h2 := required_empty_sets_deferred_error.2 "np0" "ns0" "" "agents" "4.14.0" 2
    (Or.inr (Or.inr (Or.inl rfl)))
  exact ⟨h1.1, h1.2.1, h1.2.2 _ _, h2.1, h2.2.1, h2.2.2 _⟩

/-- C6 (code bug evidence): `WithRootDeviceVendor` on a clean builder writes
the `Model` field of the root-device hints and leaves `Vendor` at its zero
value, contradicting its own documentation ("sets rootDeviceHints Vendor to
specified value"); every other field of the definition is the constructor's. -/
theorem withRootDeviceVendor_sets_model_not_vendor :
    ((bmhClean.WithRootDeviceVendor "acme").Definition.bind
        (fun d => d.Spec.RootDeviceHints.map (fun rdh => (rdh.Model, rdh.Vendor)))) =
      some ("acme", "") ∧
    (bmhClean.WithRootDeviceVendor "acme").errorMsg = "" ∧
    ((bmhClean.WithRootDeviceHTCL "0:0:0:0").Definition.bind
        (fun d => d.Spec.RootDeviceHints.map (fun rdh => rdh.HCTL))) = some "0:0:0:0" :=
  ⟨by decide, by decide, by decide⟩

/-- C9: the error state of each constructor is exactly the message of the last
failing check in the constructor's fixed source order, and in the bmh
constructor the boot-MAC-address emptiness check runs after the boot-mode
enumeration check, so an empty `bootMacAddress` masks an unacceptable
`bootMode` value. -/
theorem constructor_last_failing_check :
    (∀ (api : Bool) (name nsname bmcAddress bmcSecretName bootMacAddress bootMode : String),
        (bmh.NewBuilder api name nsname bmcAddress bmcSecretName bootMacAddress
            bootMode).errorMsg =
          lastFailing (bmhChecks name nsname bmcAddress bmcSecretName bootMacAddress
            bootMode)) ∧
    (∀ (api : Bool) (name nsname clusterName agentNamespace release : String)
        (replicas : Int),
        (hypershift.NewNodePoolBuilder api name nsname clusterName agentNamespace release
            replicas).errorMsg =
          lastFailing (npChecks name nsname clusterName release)) ∧
    (bmh.NewBuilder false "host0" "ns0" "ipmi://h0" "bmc-secret" "" "badmode").errorMsg =
      "BMH 'bootMacAddress' cannot be empty" :=
  ⟨newBuilder_errorMsg, newNodePoolBuilder_errorMsg, by decide⟩

/-- Counterexample to C7: on a remote delete failure the Observed Object is
not left unchanged — the `Exists` call embedded in `Delete` overwrites it with
the freshly fetched object (here: from `none` to the fetched host). -/
theorem delete_failure_changes_object :
    bmhClean.Object = none ∧
    (bmhClean.Delete (GetRes.ok bmhAvailable)
        (some { msg := "boom", isNotFound := false })).err =
      some { msg := "can not delete bmh: boom", isNotFound := false } ∧
    (bmhClean.Delete (GetRes.ok bmhAvailable)
        (some { msg := "boom", isNotFound := false })).builder.Object = some bmhAvailable :=
  ⟨by decide, by decide, by decide⟩

/-- C7 as amended: when `Exists()` is false, `Delete()` returns the "cannot be
deleted because it does not exist" error without invoking the remote delete;
when `Exists()` is true a failing remote delete returns the error wrapped with
the static context message and leaves the Observed Object as the existence
check set it (the freshly fetched value, not the pre-call value), and a
successful remote delete sets the Observed Object to nil. -/
theorem delete_contract :
    (∀ (b : bmh.Builder) (gr : GetRes bmh.BareMetalHost) (de : Option GoErr),
        (b.Exists gr).2 = false →
        b.Delete gr de =
          { builder := (b.Exists gr).1, deleteInvoked := false
            err := some { msg := "bmh cannot be deleted because it does not exist"
                          isNotFound := false } }) ∧
    (∀ (b : bmh.Builder) (gr : GetRes bmh.BareMetalHost) (e : GoErr),
        (b.Exists gr).2 = true →
        b.Delete gr (some e) =
          { builder := (b.Exists gr).1, deleteInvoked := true
            err := some { msg := "can not delete bmh: " ++ e.msg
                          isNotFound := e.isNotFound } }) ∧
    (∀ (b : bmh.Builder) (gr : GetRes bmh.BareMetalHost),
        (b.Exists gr).2 = true →
        b.Delete gr none =
          { builder := { (b.Exists gr).1 with Object := none }, deleteInvoked := true
            err := none }) := by
  refine ⟨?_, ?_, ?_⟩
  · intro b gr de h
    simp [bmh.Builder.Delete, h]
  · intro b gr e h
    simp [bmh.Builder.Delete, h]
  · intro b gr h
    simp [bmh.Builder.Delete, h]

/-- Witness for the amended C7 at a concrete builder: a "not found" fetch
yields the does-not-exist error without a remote delete, and a successful
fetch plus successful remote delete clears the Observed Object. -/
theorem delete_contract_witness :
    (bmhClean.Exists (GetRes.err { msg := "nf", isNotFound := true })).2 = false ∧
    bmhClean.Delete (GetRes.err { msg := "nf", isNotFound := true }) none =
      { builder := (bmhClean.Exists (GetRes.err { msg := "nf", isNotFound := true })).1
        deleteInvoked := false
        err := some { msg := "bmh cannot be deleted because it does not exist"
                      isNotFound := false } } ∧
    (bmhClean.Exists (GetRes.ok bmhAvailable)).2 = true ∧
    bmhClean.Delete (GetRes.ok bmhAvailable) none =
      { builder := { (bmhClean.Exists (GetRes.ok bmhAvailable)).1 with Object := none }
        deleteInvoked := true, err := none } :=
  ⟨by decide, delete_contract.1 bmhClean _ none (by decide), by decide,
   delete_contract.2.2 bmhClean _ (by decide)⟩

/-- If the target state is first satisfied at the fetch with relative index
`j` (absolute `i + j`) within the fuel budget, the status poll loop succeeds
at exactly that cycle, having performed `i + j + 1` fetches, and stores the
satisfying object. -/
theorem waitLoop_success_at (st : bmh.ProvisioningState) (f : Nat → GetRes bmh.BareMetalHost)
    (o : bmh.BareMetalHost) :
    ∀ (j i : Nat) (b : bmh.Builder) (n : Nat), j < n →
      (∀ m, m < j → bmh.satisfiesState st (f (i + m)) = false) →
      f (i + j) = GetRes.ok o → (o.Status.Provisioning.State == st) = true →
      bmh.waitLoop st f b i n = ({ b with Object := some o }, WaitRes.success, i + j + 1) := by
  intro j
  induction j with
  | zero =>
      intro i b n hn hpre hok hst
      obtain ⟨n', rfl⟩ : ∃ n', n = n' + 1 := ⟨n - 1, by omega⟩
      rw [Nat.add_zero] at hok
      simp [bmh.waitLoop, hok, hst]
  | succ j ih =>
      intro i b n hn hpre hok hst
      obtain ⟨n', rfl⟩ : ∃ n', n = n' + 1 := ⟨n - 1, by omega⟩
      have h0 := hpre 0 (Nat.succ_pos j)
      rw [Nat.add_zero] at h0
      have hok' : f (i + 1 + j) = GetRes.ok o := by
        rw [show i + 1 + j = i + (j + 1) by omega]
        exact hok
      have hpre' : ∀ m, m < j → bmh.satisfiesState st (f (i + 1 + m)) = false := by
        intro m hm
        rw [show i + 1 + m = i + (m + 1) by omega]
        exact hpre (m + 1) (by omega)
      rcases hf : f i with obj | e
      · rw [hf] at h0
        simp [bmh.satisfiesState] at h0
        have := ih (i + 1) { b with Object := some obj } n' (by omega) hpre' hok' hst
        rw [show i + 1 + j + 1 = i + (j + 1) + 1 by omega] at this
        simp [bmh.waitLoop, hf, h0]
        exact this
      · have := ih (i + 1) { b with Object := none } n' (by omega) hpre' hok' hst
        rw [show i + 1 + j + 1 = i + (j + 1) + 1 by omega] at this
        simp [bmh.waitLoop, hf]
        exact this

/-- If no fetch within the fuel budget satisfies the target state, the status
poll loop times out after consuming the whole budget. -/
theorem waitLoop_timeout_at (st : bmh.ProvisioningState) (f : Nat → GetRes bmh.BareMetalHost) :
    ∀ (n i : Nat) (b : bmh.Builder),
      (∀ m, m < n → bmh.satisfiesState st (f (i + m)) = false) →
      (bmh.waitLoop st f b i n).2.1 = WaitRes.timeout ∧
      (bmh.waitLoop st f b i n).2.2 = i + n := by
  intro n
  induction n with
  | zero => intro i b h; exact ⟨rfl, rfl⟩
  | succ n ih =>
      intro i b h
      have h0 := h 0 (Nat.succ_pos n)
      rw [Nat.add_zero] at h0
      have hpre' : ∀ m, m < n → bmh.satisfiesState st (f (i + 1 + m)) = false := by
        intro m hm
        rw [show i + 1 + m = i + (m + 1) by omega]
        exact h (m + 1) (by omega)
      rcases hf : f i with obj | e
      · rw [hf] at h0
        simp [bmh.satisfiesState] at h0
        have := ih (i + 1) { b with Object := some obj } hpre'
        simp [bmh.waitLoop, hf, h0]
        exact ⟨this.1, by rw [this.2]; omega⟩
      · have := ih (i + 1) { b with Object := none } hpre'
        simp [bmh.waitLoop, hf]
        exact ⟨this.1, by rw [this.2]; omega⟩

/-- Replica-wait analogue of `waitLoop_success_at`. -/
theorem npWaitLoop_success_at (r : Int) (f : Nat → GetRes hypershift.NodePool)
    (o : hypershift.NodePool) :
    ∀ (j i : Nat) (b : hypershift.NodePoolBuilder) (n : Nat), hypershift.npValid b → j < n →
      (∀ m, m < j → hypershift.satisfiesReplicas r (f (i + m)) = false) →
      f (i + j) = GetRes.ok o → (o.Status.Replicas == r) = true →
      hypershift.npWaitLoop r f b i n =
        ({ b with Object := some o }, WaitRes.success, i + j + 1) := by
  intro j
  induction j with
  | zero =>
      intro i b n hv hn hpre hok hst
      obtain ⟨n', rfl⟩ : ∃ n', n = n' + 1 := ⟨n - 1, by omega⟩
      rw [Nat.add_zero] at hok
      simp [hypershift.npWaitLoop, hypershift.NodePoolBuilder.Get, validate_of_valid b hv,
        hok, hst]
  | succ j ih =>
      intro i b n hv hn hpre hok hst
      obtain ⟨n', rfl⟩ : ∃ n', n = n' + 1 := ⟨n - 1, by omega⟩
      have h0 := hpre 0 (Nat.succ_pos j)
      rw [Nat.add_zero] at h0
      have hok' : f (i + 1 + j) = GetRes.ok o := by
        rw [show i + 1 + j = i + (j + 1) by omega]
        exact hok
      have hpre' : ∀ m, m < j → hypershift.satisfiesReplicas r (f (i + 1 + m)) = false := by
        intro m hm
        rw [show i + 1 + m = i + (m + 1) by omega]
        exact hpre (m + 1) (by omega)
      rcases hf : f i with obj | e
      · rw [hf] at h0
        simp [hypershift.satisfiesReplicas] at h0
        have := ih (i + 1) { b with Object := some obj } n' hv (by omega) hpre' hok' hst
        rw [show i + 1 + j + 1 = i + (j + 1) + 1 by omega] at this
        simp [hypershift.npWaitLoop, hypershift.NodePoolBuilder.Get, validate_of_valid b hv,
          hf, h0]
        exact this
      · have := ih (i + 1) { b with Object := none } n' hv (by omega) hpre' hok' hst
        rw [show i + 1 + j + 1 = i + (j + 1) + 1 by omega] at this
        simp [hypershift.npWaitLoop, hypershift.NodePoolBuilder.Get, validate_of_valid b hv,
          hf]
        exact this

/-- Replica-wait analogue of `waitLoop_timeout_at`. -/
theorem npWaitLoop_timeout_at (r : Int) (f : Nat → GetRes hypershift.NodePool) :
    ∀ (n i : Nat) (b : hypershift.NodePoolBuilder), hypershift.npValid b →
      (∀ m, m < n → hypershift.satisfiesReplicas r (f (i + m)) = false) →
      (hypershift.npWaitLoop r f b i n).2.1 = WaitRes.timeout ∧
      (hypershift.npWaitLoop r f b i n).2.2 = i + n := by
  intro n
  induction n with
  | zero => intro i b hv h; exact ⟨rfl, rfl⟩
  | succ n ih =>
      intro i b hv h
      have h0 := h 0 (Nat.succ_pos n)
      rw [Nat.add_zero] at h0
      have hpre' : ∀ m, m < n → hypershift.satisfiesReplicas r (f (i + 1 + m)) = false := by
        intro m hm
        rw [show i + 1 + m = i + (m + 1) by omega]
        exact h (m + 1) (by omega)
      rcases hf : f i with obj | e
      · rw [hf] at h0
        simp [hypershift.satisfiesReplicas] at h0
        have := ih (i + 1) { b with Object := some obj } hv hpre'
        simp [hypershift.npWaitLoop, hypershift.NodePoolBuilder.Get, validate_of_valid b hv,
          hf, h0]
        exact ⟨this.1, by rw [this.2]; omega⟩
      · have := ih (i + 1) { b with Object := none } hv hpre'
        simp [hypershift.npWaitLoop, hypershift.NodePoolBuilder.Get, validate_of_valid b hv,
          hf]
        exact ⟨this.1, by rw [this.2]; omega⟩

/-- C8: for every status-polling wait on a clean builder whose fetch sequence
first satisfies the target condition at the k-th fetch (k = j + 1) with
k·1s strictly below the timeout budget, the wait returns success at that cycle
having performed exactly k fetches; if no fetch within the budget satisfies
the condition, the wait returns a timeout error after consuming the whole
budget. -/
theorem poll_until_status_contract :
    (∀ (b : bmh.Builder) (st : bmh.ProvisioningState) (f : Nat → GetRes bmh.BareMetalHost)
        (j T : Nat) (o : bmh.BareMetalHost), b.errorMsg = "" →
        (∀ m, m < j → bmh.satisfiesState st (f m) = false) →
        f j = GetRes.ok o → (o.Status.Provisioning.State == st) = true → j + 1 < T →
        b.WaitUntilInStatus st f T = ({ b with Object := some o }, WaitRes.success, j + 1)) ∧
    (∀ (b : bmh.Builder) (st : bmh.ProvisioningState) (f : Nat → GetRes bmh.BareMetalHost)
        (T : Nat), b.errorMsg = "" →
        (∀ m, m < T → bmh.satisfiesState st (f m) = false) →
        (b.WaitUntilInStatus st f T).2.1 = WaitRes.timeout ∧
        (b.WaitUntilInStatus st f T).2.2 = T) ∧
    (∀ (b : hypershift.NodePoolBuilder) (r : Int) (f : Nat → GetRes hypershift.NodePool)
        (j T : Nat) (o : hypershift.NodePool), hypershift.npValid b →
        (∀ m, m < j → hypershift.satisfiesReplicas r (f m) = false) →
        f j = GetRes.ok o → (o.Status.Replicas == r) = true → j + 1 < T →
        b.WaitForReplicas r f T =
          (some { b with Object := some o }, WaitRes.success, j + 1)) ∧
    (∀ (b : hypershift.NodePoolBuilder) (r : Int) (f : Nat → GetRes hypershift.NodePool)
        (T : Nat), hypershift.npValid b →
        (∀ m, m < T → hypershift.satisfiesReplicas r (f m) = false) →
        (b.WaitForReplicas r f T).1 = none ∧
        (b.WaitForReplicas r f T).2.1 = WaitRes.timeout ∧
        (b.WaitForReplicas r f T).2.2 = T) := by
  refine ⟨?_, ?_, ?_, ?_⟩
  · intro b st f j T o h hpre hok hst hT
    have hl := waitLoop_success_at st f o j 0 b T (by omega)
      (fun m hm => by rw [Nat.zero_add]; exact hpre m hm)
      (by rw [Nat.zero_add]; exact hok) hst
    rw [Nat.zero_add] at hl
    simpa [bmh.Builder.WaitUntilInStatus, h] using hl
  · intro b st f T h hpre
    have hl := waitLoop_timeout_at st f T 0 b
      (fun m hm => by rw [Nat.zero_add]; exact hpre m hm)
    rw [Nat.zero_add] at hl
    constructor
    · simpa [bmh.Builder.WaitUntilInStatus, h] using hl.1
    · simpa [bmh.Builder.WaitUntilInStatus, h] using hl.2
  · intro b r f j T o hv hpre hok hst hT
    have hl := npWaitLoop_success_at r f o j 0 b T hv (by omega)
      (fun m hm => by rw [Nat.zero_add]; exact hpre m hm)
      (by rw [Nat.zero_add]; exact hok) hst
    rw [Nat.zero_add] at hl
    simp [hypershift.NodePoolBuilder.WaitForReplicas, validate_of_valid b hv, hl]
  · intro b r f T hv hpre
    have hl := npWaitLoop_timeout_at r f T 0 b hv
      (fun m hm => by rw [Nat.zero_add]; exact hpre m hm)
    rw [Nat.zero_add] at hl
    refine ⟨?_, ?_, ?_⟩ <;>
      simp [hypershift.NodePoolBuilder.WaitForReplicas, validate_of_valid b hv, hl.1, hl.2]

/-- Witness for C8 at concrete fetch sequences: the bmh status wait succeeds
at the third fetch of a four-cycle budget, times out when the state never
matches, and the replica wait behaves the same way. -/
theorem poll_until_status_contract_witness :
    bmhClean.WaitUntilInStatus "provisioned"
        (fun i => if i < 2 then GetRes.ok bmhAvailable else GetRes.ok bmhProvisioned) 4 =
      ({ bmhClean with Object := some bmhProvisioned }, WaitRes.success, 3) ∧
    (bmhClean.WaitUntilInStatus "provisioned" (fun _ => GetRes.ok bmhAvailable) 2).2.1 =
      WaitRes.timeout ∧
    npClean.WaitForReplicas 2
        (fun i => if i < 1 then GetRes.ok (npObj 0) else GetRes.ok (npObj 2)) 3 =
      (some { npClean with Object := some (npObj 2) }, WaitRes.success, 2) ∧
    (npClean.WaitForReplicas 2 (fun _ => GetRes.ok (npObj 0)) 2).1 = none :=
  ⟨poll_until_status_contract.1 bmhClean "provisioned" _ 2 4 bmhProvisioned (by decide)
      (by decide) (by decide) (by decide) (by decide),
   (poll_until_status_contract.2.1 bmhClean "provisioned" _ 2 (by decide) (by decide)).1,
   poll_until_status_contract.2.2.1 npClean 2 _ 1 3 (npObj 2) (by decide) (by decide)
      (by decide) (by decide) (by decide),
   (poll_until_status_contract.2.2.2 npClean 2 _ 2 (by decide) (by decide)).1⟩

/-- Counterexample to C10: `DeleteAndWaitUntilDeleted` also returns a nil
builder when the delete succeeds but the deletion wait then times out, so a
nil builder is not returned precisely on success. -/
theorem deleteAndWait_nil_without_success :
    bmhClean.DeleteAndWaitUntilDeleted (GetRes.ok bmhAvailable) none
        (fun _ => GetRes.ok bmhAvailable) 3 = (none, WaitRes.timeout) := by decide

/-- C10 as amended: `WaitForReplicas` returns a nil builder whenever the poll
it runs ends in anything but success, and `DeleteAndWaitUntilDeleted` returns
a nil builder precisely when the initial `Delete` succeeds, regardless of the
subsequent wait's outcome. -/
theorem nil_builder_scope :
    (∀ (b : hypershift.NodePoolBuilder) (r : Int) (f : Nat → GetRes hypershift.NodePool)
        (T : Nat), hypershift.npValid b →
        (b.WaitForReplicas r f T).2.1 ≠ WaitRes.success →
        (b.WaitForReplicas r f T).1 = none) ∧
    (∀ (b : bmh.Builder) (gr : GetRes bmh.BareMetalHost) (de : Option GoErr)
        (f : Nat → GetRes bmh.BareMetalHost) (T : Nat),
        ((b.DeleteAndWaitUntilDeleted gr de f T).1 = none ↔ (b.Delete gr de).err = none)) := by
  constructor
  · intro b r f T hv hne
    by_cases hs : (hypershift.npWaitLoop r f b 0 T).2.1 = WaitRes.success
    · exfalso
      apply hne
      simp [hypershift.NodePoolBuilder.WaitForReplicas, validate_of_valid b hv, hs]
    · simp [hypershift.NodePoolBuilder.WaitForReplicas, validate_of_valid b hv, hs]
  · intro b gr de f T
    rcases hd : (b.Delete gr de).err with _ | e <;>
      simp [bmh.Builder.DeleteAndWaitUntilDeleted, hd]

/-- Witness for the amended C10 at concrete inputs: a replica wait ending in
timeout yields a nil builder, and a successful delete followed by a
successful deletion wait yields a nil builder. -/
theorem nil_builder_scope_witness :
    (npClean.WaitForReplicas 5 (fun _ => GetRes.err { msg := "x", isNotFound := false }) 1).1 =
      none ∧
    (bmhClean.DeleteAndWaitUntilDeleted (GetRes.ok bmhAvailable) none
        (fun _ => GetRes.err { msg := "gone", isNotFound := true }) 2).1 = none :=
  ⟨nil_builder_scope.1 npClean 5 _ 1 (by decide) (by decide),
   (nil_builder_scope.2 bmhClean _ none _ 2).mpr (by decide)⟩
